import Mathlib

/-!
Verification of the student-profile intake and reporting application
(`pages/Course_Recommendation.py` and `Students_Dashboard.py`).

The intake page collects a student profile through a form, sends it to an
external generative-text service, and upserts it into a MongoDB collection
keyed by `name`.  The dashboard page loads the whole collection and derives
aggregate views (counts, means, flattened tag counts).

Shallow embedding choices:
* The MongoDB `students` collection is a `List StudentProfile` (the stored
  documents, in store order; MongoDB's `_id` is dropped by the dashboard
  reader and is not modelled).  `update_one({name}, {$set: data}, upsert=True)`
  replaces the first document whose `name` matches, or appends a new one.
* Streamlit widgets constrain their values (`selectbox` returns one of its
  options, `number_input` respects its bounds, `multiselect` returns a subset
  of its options); `FormInput` carries those widget guarantees as proof fields.
* Python floats that the form bounds to [0, 100] are modelled as `ℚ`.
* The external Gemini call and the store call are fallible collaborators:
  the response of the Gemini call is an `Except ServiceError String`
  parameter, and the outcome of the store call is a `StoreCallOutcome`
  parameter.  `st.error` / `st.success` / `st.info` / `st.write` output is
  modelled as `Feedback` values.  An exception that a handler catches turns
  into a returned `Feedback`; an uncaught exception is an `Except.error`
  escaping `run`.
-/

namespace StudentRec

/-- Options of the `Gender` selectbox in `collect_student_details`;
`"Select"` is the placeholder shown before the user picks a gender
(the spec's `unset`). -/
def genderOptions : List String := ["Select", "Male", "Female", "Other"]

/-- Options of the `Current Education Level` selectbox. -/
def educationLevelOptions : List String :=
  ["High School", "Undergraduate", "Postgraduate", "Professional Degree", "Doctoral"]

/-- Options of the `Field of Study` selectbox. -/
def fieldOfStudyOptions : List String :=
  ["Computer Science", "Engineering", "Data Science", "Business",
   "Arts & Humanities", "Social Sciences", "Natural Sciences", "Other"]

/-- Options of the `Technical Skills` multiselect. -/
def technicalSkillOptions : List String :=
  ["Programming", "Data Analysis", "Machine Learning", "Web Development",
   "Cloud Computing", "Cybersecurity", "None"]

/-- Options of the `Learning Interests` multiselect. -/
def learningInterestOptions : List String :=
  ["Software Development", "Data Science", "Artificial Intelligence",
   "Cloud Technologies", "Digital Marketing", "Business Analytics",
   "UX/UI Design", "Cybersecurity"]

/-- The `student_data` dict built in `collect_student_details` — one stored
document of the `students` collection. -/
structure StudentProfile where
  name : String
  email : String
  phone : String
  roll_no : String
  age : Nat
  gender : String
  education_level : String
  field_of_study : String
  previous_marks : ℚ
  technical_skills : List String
  learning_interests : List String
deriving DecidableEq

/-- The values delivered by the form widgets, together with the guarantees
the widgets provide: `number_input` bounds (`Age` 16–65, marks 0.0–100.0),
`selectbox` membership in the option list, `multiselect` subset of the
option list. -/
structure FormInput where
  name : String
  email : String
  phone : String
  roll_no : String
  age : Nat
  age_lb : 16 ≤ age
  age_ub : age ≤ 65
  gender : String
  gender_mem : gender ∈ genderOptions
  education_level : String
  education_mem : education_level ∈ educationLevelOptions
  field_of_study : String
  field_mem : field_of_study ∈ fieldOfStudyOptions
  previous_marks : ℚ
  marks_lb : 0 ≤ previous_marks
  marks_ub : previous_marks ≤ 100
  technical_skills : List String
  skills_mem : ∀ s ∈ technical_skills, s ∈ technicalSkillOptions
  learning_interests : List String
  interests_mem : ∀ s ∈ learning_interests, s ∈ learningInterestOptions

/-- The `student_data` dict assembled from the form fields. -/
def buildProfile (form : FormInput) : StudentProfile where
  name := form.name
  email := form.email
  phone := form.phone
  roll_no := form.roll_no
  age := form.age
  gender := form.gender
  education_level := form.education_level
  field_of_study := form.field_of_study
  previous_marks := form.previous_marks
  technical_skills := form.technical_skills
  learning_interests := form.learning_interests

/-- The validation conditions of the intake form. -/
inductive ValidationError where
  | MissingRequiredField
deriving DecidableEq

/-- `collect_student_details` on a submitted form: `if not name` (the empty
string) it shows "Full Name is required" and returns `None` — modelled as the
`MissingRequiredField` condition — otherwise it builds the `student_data`
dict. -/
def collectStudentDetails (form : FormInput) : Except ValidationError StudentProfile :=
  if form.name = "" then .error .MissingRequiredField else .ok (buildProfile form)

/-- One entry of the hard-coded course list in `recommend_courses`. -/
structure CourseEntry where
  platform : String
  title : String
  url : String
  difficulty : String
deriving DecidableEq

/-- `recommend_courses`: the hard-coded placeholder list, returned for every
analysis text. -/
def recommendCourses (_analysis : String) : List CourseEntry :=
  [{ platform := "Coursera",
     title := "Machine Learning Specialization",
     url := "https://www.coursera.org/specializations/machine-learning",
     difficulty := "Intermediate" },
   { platform := "Udemy",
     title := "Complete Python Bootcamp",
     url := "https://www.udemy.com/course/complete-python-bootcamp/",
     difficulty := "Beginner" }]

/-- A failure of an external collaborator (the Gemini call raising). -/
inductive ServiceError where
  | failure (message : String)
deriving DecidableEq

/-- `analyze_student_profile` sends a prompt to the Gemini model and returns
the response text verbatim; the external response (or its failure) is the
`geminiResponse` parameter, and no handler wraps the call. -/
def analyzeStudentProfile (_profile : StudentProfile)
    (geminiResponse : Except ServiceError String) : Except ServiceError String :=
  geminiResponse

/-- Outcome of the `update_one` store call inside `save_student_data`:
it succeeds, raises `pymongo.errors.DuplicateKeyError`, or raises some other
exception. -/
inductive StoreCallOutcome where
  | ok
  | duplicateKey
  | failure (message : String)
deriving DecidableEq

/-- The user-visible messages the intake page emits via `st.error`,
`st.success`, `st.info` and `st.write`. -/
inductive Feedback where
  | nameRequired
  | analysisShown (text : String)
  | coursesShown (courses : List CourseEntry)
  | profileCreated (name : String)
  | profileUpdated (name : String)
  | duplicateKeyError (name : String)
  | saveError (name : String)
deriving DecidableEq

/-- The `students` collection: the stored documents in store order. -/
abbrev Store := List StudentProfile

/-- `update_one({"name": p.name}, {"$set": p}, upsert=True)`: replace the
first stored document whose `name` equals `p.name` (the `$set` covers every
field of the document), or insert `p` if no document matches. -/
def upsertProfile (p : StudentProfile) : Store → Store
  | [] => [p]
  | d :: ds => if d.name = p.name then p :: ds else d :: upsertProfile p ds

/-- `save_student_data`: performs the upsert and reports
created/updated (`result.upserted_id` is set exactly when no document
matched, i.e. a new one was inserted); both exception branches are caught
and turned into an `st.error` message, leaving the store unchanged. -/
def saveStudentData (store : Store) (p : StudentProfile) :
    StoreCallOutcome → Store × Feedback
  | .ok =>
      if store.any (fun d => d.name = p.name)
      then (upsertProfile p store, .profileUpdated p.name)
      else (upsertProfile p store, .profileCreated p.name)
  | .duplicateKey => (store, .duplicateKeyError p.name)
  | .failure _ => (store, .saveError p.name)

/-- The `run` method for one submitted form: collect details; if a profile
was built, call the Gemini service (uncaught — a failure escapes as
`Except.error`), display the analysis and the course list, then save the
profile (store-call failures are caught inside `save_student_data`). -/
def run (form : FormInput) (geminiResponse : Except ServiceError String)
    (storeCall : StoreCallOutcome) (store : Store) :
    Except ServiceError (Store × List Feedback) :=
  match collectStudentDetails form with
  | .error _ => .ok (store, [.nameRequired])
  | .ok profile =>
    match analyzeStudentProfile profile geminiResponse with
    | .error e => .error e
    | .ok analysis =>
      let courses := recommendCourses analysis
      let (storeAfter, fb) := saveStudentData store profile storeCall
      .ok (storeAfter, [.analysisShown analysis, .coursesShown courses, fb])

/-- `get_students_dataframe` fetches every stored document
(`collection.find()`), in store order. -/
def loadAllProfiles (store : Store) : List StudentProfile := store

/-- `df['education_level'].value_counts()` viewed as the map from a level to
its number of occurrences. -/
def educationCounts (profiles : List StudentProfile) (lvl : String) : Nat :=
  (profiles.map StudentProfile.education_level).count lvl

/-- `df['field_of_study'].value_counts()` viewed as the map from a field to
its number of occurrences. -/
def fieldCounts (profiles : List StudentProfile) (fos : String) : Nat :=
  (profiles.map StudentProfile.field_of_study).count fos

/-- The data behind the `previous_marks` boxplot: the multiset of all stored
marks. -/
def marksDistribution (profiles : List StudentProfile) : Multiset ℚ :=
  ↑(profiles.map StudentProfile.previous_marks)

/-- The `previous_marks` of the group of one `education_level`. -/
def marksByEducation (profiles : List StudentProfile) (lvl : String) : List ℚ :=
  (profiles.filter (fun p => p.education_level = lvl)).map StudentProfile.previous_marks

/-- `df.groupby('education_level')['previous_marks'].mean()`: the mean of the
marks of each education level that occurs in the data (`none` for a level
with no rows, which `groupby` omits). -/
def avgMarksByEducation (profiles : List StudentProfile) (lvl : String) : Option ℚ :=
  let ms := marksByEducation profiles lvl
  if ms = [] then none else some (ms.sum / ms.length)

/-- The flattening `[skill for skills in df['technical_skills'] for skill in skills]`. -/
def allSkills (profiles : List StudentProfile) : List String :=
  profiles.flatMap StudentProfile.technical_skills

/-- `pd.Series(all_skills).value_counts()` viewed as the map from a skill tag
to its number of occurrences across all profiles. -/
def skillCounts (profiles : List StudentProfile) (tag : String) : Nat :=
  (allSkills profiles).count tag

/-- The flattening of `df['learning_interests']`. -/
def allInterests (profiles : List StudentProfile) : List String :=
  profiles.flatMap StudentProfile.learning_interests

/-- `pd.Series(all_interests).value_counts()` viewed as the map from an
interest tag to its number of occurrences across all profiles. -/
def interestCounts (profiles : List StudentProfile) (tag : String) : Nat :=
  (allInterests profiles).count tag

/-- What the dashboard renders: either the explicit "No student data
available." state, or the charts over the aggregate views. -/
inductive DashboardView where
  | noData
  | charts (eduCounts : String → Nat) (fosCounts : String → Nat)
      (marksDist : Multiset ℚ) (avgMarks : String → Option ℚ)
      (skillCnts : String → Nat) (interestCnts : String → Nat)

/-- `render_dashboard`: load the collection; on an empty frame warn
"No student data available." and return early, otherwise render the charts
over the aggregates. -/
def renderDashboard (store : Store) : DashboardView :=
  let profiles := loadAllProfiles store
  if profiles.isEmpty then .noData
  else .charts (educationCounts profiles) (fieldCounts profiles)
    (marksDistribution profiles) (avgMarksByEducation profiles)
    (skillCounts profiles) (interestCounts profiles)

/-! ### Concrete data used by witnesses and counterexamples -/

/-- A stored document with the first skill set of the spec's flatten-count
example. -/
def sampleProfile1 : StudentProfile where
  name := "Asha Rao"
  email := "asha@example.com"
  phone := "+91 9000000001"
  roll_no := "CS101"
  age := 20
  gender := "Female"
  education_level := "Undergraduate"
  field_of_study := "Computer Science"
  previous_marks := 72
  technical_skills := ["Programming", "Cloud Computing"]
  learning_interests := ["Data Science"]

/-- A later submission for the same `name` as `sampleProfile1`, with
different other fields and the second skill set of the spec's example. -/
def sampleProfile2 : StudentProfile where
  name := "Asha Rao"
  email := "asha.rao@uni.edu"
  phone := "+91 9000000002"
  roll_no := "CS102"
  age := 21
  gender := "Female"
  education_level := "Postgraduate"
  field_of_study := "Data Science"
  previous_marks := 81
  technical_skills := ["Programming"]
  learning_interests := ["Artificial Intelligence"]

/-- Undergraduate document with marks 50. -/
def marksProfile1 : StudentProfile where
  name := "Ben Kumar"
  email := ""
  phone := ""
  roll_no := "E1"
  age := 19
  gender := "Male"
  education_level := "Undergraduate"
  field_of_study := "Engineering"
  previous_marks := 50
  technical_skills := []
  learning_interests := []

/-- Undergraduate document with marks 70. -/
def marksProfile2 : StudentProfile where
  name := "Chitra Nair"
  email := ""
  phone := ""
  roll_no := "E2"
  age := 20
  gender := "Female"
  education_level := "Undergraduate"
  field_of_study := "Engineering"
  previous_marks := 70
  technical_skills := []
  learning_interests := []

/-- Undergraduate document with marks 90. -/
def marksProfile3 : StudentProfile where
  name := "Dev Shah"
  email := ""
  phone := ""
  roll_no := "E3"
  age := 21
  gender := "Other"
  education_level := "Undergraduate"
  field_of_study := "Engineering"
  previous_marks := 90
  technical_skills := []
  learning_interests := []

/-- A submitted form with every widget value concrete and a non-empty name. -/
def validForm : FormInput where
  name := "Asha Rao"
  email := "asha@example.com"
  phone := "+91 9000000001"
  roll_no := "CS101"
  age := 20
  age_lb := by decide
  age_ub := by decide
  gender := "Female"
  gender_mem := by decide
  education_level := "Undergraduate"
  education_mem := by decide
  field_of_study := "Computer Science"
  field_mem := by decide
  previous_marks := 72
  marks_lb := by decide
  marks_ub := by decide
  technical_skills := ["Programming", "Cloud Computing"]
  skills_mem := by decide
  learning_interests := ["Data Science"]
  interests_mem := by decide

/-- A submitted form whose `Full Name` field was left empty. -/
def emptyNameForm : FormInput where
  name := ""
  email := "nobody@example.com"
  phone := ""
  roll_no := ""
  age := 16
  age_lb := by decide
  age_ub := by decide
  gender := "Select"
  gender_mem := by decide
  education_level := "High School"
  education_mem := by decide
  field_of_study := "Other"
  field_mem := by decide
  previous_marks := 0
  marks_lb := by decide
  marks_ub := by decide
  technical_skills := []
  skills_mem := by decide
  learning_interests := []
  interests_mem := by decide

/-! ### Helper lemmas about the upsert -/

/-- Every document of `upsertProfile p store` is `p` or was already stored. -/
theorem mem_upsertProfile {p d : StudentProfile} {store : Store}
    (h : d ∈ upsertProfile p store) : d = p ∨ d ∈ store := by
  induction store with
  | nil => simpa [upsertProfile] using h
  | cons e es ih =>
    by_cases he : e.name = p.name
    · simp only [upsertProfile, if_pos he, List.mem_cons] at h
      rcases h with h | h
      · exact Or.inl h
      · exact Or.inr (List.mem_cons_of_mem _ h)
    · simp only [upsertProfile, if_neg he, List.mem_cons] at h
      rcases h with h | h
      · exact Or.inr (by simp [h])
      · rcases ih h with h1 | h1
        · exact Or.inl h1
        · exact Or.inr (List.mem_cons_of_mem _ h1)

/-- Upserting preserves the uniqueness of stored names. -/
theorem namesNodup_upsertProfile {p : StudentProfile} {store : Store}
    (h : (store.map StudentProfile.name).Nodup) :
    ((upsertProfile p store).map StudentProfile.name).Nodup := by
  induction store with
  | nil => simp [upsertProfile]
  | cons d ds ih =>
    rw [List.map_cons, List.nodup_cons] at h
    by_cases hd : d.name = p.name
    · simp only [upsertProfile, if_pos hd, List.map_cons, List.nodup_cons]
      exact ⟨hd ▸ h.1, h.2⟩
    · simp only [upsertProfile, if_neg hd, List.map_cons, List.nodup_cons]
      refine ⟨?_, ih h.2⟩
      intro hmem
      rcases List.mem_map.1 hmem with ⟨e, he, hename⟩
      rcases mem_upsertProfile he with rfl | hes
      · exact hd hename.symm
      · exact h.1 (hename ▸ List.mem_map_of_mem StudentProfile.name hes)

/-- A document whose name is not among the stored names is not stored. -/
theorem count_eq_zero_of_name_not_mem {p : StudentProfile} {store : Store}
    (h : p.name ∉ store.map StudentProfile.name) : store.count p = 0 := by
  rw [List.count_eq_zero]
  exact fun hp => h (List.mem_map_of_mem StudentProfile.name hp)

/-- Under unique names, after an upsert of `p` exactly one stored document
equals `p`. -/
theorem count_upsertProfile_self {p : StudentProfile} {store : Store}
    (h : (store.map StudentProfile.name).Nodup) :
    (upsertProfile p store).count p = 1 := by
  induction store with
  | nil => simp [upsertProfile]
  | cons d ds ih =>
    rw [List.map_cons, List.nodup_cons] at h
    by_cases hd : d.name = p.name
    · simp only [upsertProfile, if_pos hd]
      rw [List.count_cons_self, count_eq_zero_of_name_not_mem (hd ▸ h.1)]
    · have hne : p ≠ d := fun he => hd (he ▸ rfl)
      simp only [upsertProfile, if_neg hd]
      rw [List.count_cons_of_ne hne, ih h.2]

/-- Submitting any sequence of profiles into an initially unique-named store
keeps the stored names unique. -/
theorem namesNodup_foldl_upsert (ps : List StudentProfile) (store : Store)
    (h : (store.map StudentProfile.name).Nodup) :
    ((ps.foldl (fun s p => upsertProfile p s) store).map StudentProfile.name).Nodup := by
  induction ps generalizing store with
  | nil => simpa using h
  | cons p ps ih => exact ih _ (namesNodup_upsertProfile h)

/-- Counting a tag in a flattened list of per-profile tag lists equals the
sum of the per-profile counts. -/
theorem count_flatMap_eq_sum (f : StudentProfile → List String)
    (profiles : List StudentProfile) (tag : String) :
    (profiles.flatMap f).count tag = (profiles.map (fun p => (f p).count tag)).sum := by
  induction profiles with
  | nil => rfl
  | cons p ps ih => simp [List.flatMap_cons, List.count_append, ih]

/-- The grouped mean is invariant under a permutation of the group's marks. -/
theorem mean_perm {m₁ m₂ : List ℚ} (hp : m₁.Perm m₂) :
    (if m₁ = [] then (none : Option ℚ) else some (m₁.sum / m₁.length)) =
    (if m₂ = [] then none else some (m₂.sum / m₂.length)) := by
  by_cases he : m₁ = []
  · subst he
    rw [hp.symm.eq_nil]
  · have h2 : m₂ ≠ [] := fun e => he (by rw [e] at hp; exact hp.eq_nil)
    rw [if_neg he, if_neg h2, hp.sum_eq, hp.length_eq]

/-! ### The claims -/

/-- C1: along every sequence of submissions into the initially empty
collection the stored names stay unique (at most one document per name), and
a second submission with the same name fully replaces the first document:
two same-name submissions leave exactly the later document. -/
theorem upsert_last_write_wins :
    (∀ ps : List StudentProfile,
      ((ps.foldl (fun s p => upsertProfile p s) ([] : Store)).map
        StudentProfile.name).Nodup) ∧
    (∀ p₁ p₂ : StudentProfile, p₁.name = p₂.name →
      upsertProfile p₂ (upsertProfile p₁ []) = [p₂]) := by
  constructor
  · intro ps
    exact namesNodup_foldl_upsert ps [] (by simp)
  · intro p₁ p₂ hname
    simp [upsertProfile, hname]

/-- Witness for C1 at the two concrete same-name submissions. -/
theorem upsert_last_write_wins_witness :
    upsertProfile sampleProfile2 (upsertProfile sampleProfile1 []) = [sampleProfile2] :=
  upsert_last_write_wins.2 sampleProfile1 sampleProfile2 rfl

/-- C2: for every store with unique names and every profile `p`, upserting
`p` and then loading all profiles yields a collection containing exactly one
document equal to `p` (idempotent replace round-trip). -/
theorem upsert_then_load_exactly_one (store : Store) (p : StudentProfile)
    (h : ((loadAllProfiles store).map StudentProfile.name).Nodup) :
    (loadAllProfiles (upsertProfile p store)).count p = 1 :=
  count_upsertProfile_self h

/-- Witness for C2 at a concrete store and profile. -/
theorem upsert_then_load_exactly_one_witness :
    (loadAllProfiles (upsertProfile sampleProfile2 [sampleProfile1])).count
      sampleProfile2 = 1 :=
  upsert_then_load_exactly_one [sampleProfile1] sampleProfile2 (by decide)

/-- C3: a submitted form with an empty name yields the
`MissingRequiredField` condition, and the request cycle leaves the store
unchanged (no write happens), whatever the external services would do. -/
theorem empty_name_rejected_no_write (form : FormInput)
    (geminiResponse : Except ServiceError String) (storeCall : StoreCallOutcome)
    (store : Store) (h : form.name = "") :
    collectStudentDetails form = .error .MissingRequiredField ∧
    run form geminiResponse storeCall store = .ok (store, [.nameRequired]) := by
  have hc : collectStudentDetails form = .error .MissingRequiredField := by
    simp [collectStudentDetails, h]
  exact ⟨hc, by simp [run, hc]⟩

/-- Witness for C3 at the concrete empty-name form. -/
theorem empty_name_rejected_no_write_witness :
    collectStudentDetails emptyNameForm = .error .MissingRequiredField ∧
    run emptyNameForm (.ok "analysis") .ok [] = .ok ([], [.nameRequired]) :=
  empty_name_rejected_no_write emptyNameForm (.ok "analysis") .ok [] rfl

/-- C4: on the empty collection the dashboard renders the explicit
"no data" state instead of attempting any grouping, and every aggregate view
of the empty input is the zero/empty state. -/
theorem aggregate_empty_no_data :
    renderDashboard ([] : Store) = .noData ∧
    (∀ lvl, educationCounts [] lvl = 0) ∧
    (∀ fos, fieldCounts [] fos = 0) ∧
    marksDistribution [] = 0 ∧
    (∀ lvl, avgMarksByEducation [] lvl = none) ∧
    (∀ tag, skillCounts [] tag = 0) ∧
    (∀ tag, interestCounts [] tag = 0) :=
  ⟨rfl, fun _ => rfl, fun _ => rfl, rfl, fun _ => rfl, fun _ => rfl, fun _ => rfl⟩

/-- C5: the skill-count aggregate flattens all profiles' `technical_skills`
and counts each tag's occurrences (the count of a tag is the sum of its
per-profile counts); analogously for `learning_interests`; on the spec's
example the counts are Programming = 2 and Cloud Computing = 1. -/
theorem skill_counts_flatten_then_count :
    (∀ (profiles : List StudentProfile) (tag : String),
      skillCounts profiles tag =
        (profiles.map (fun p => p.technical_skills.count tag)).sum) ∧
    (∀ (profiles : List StudentProfile) (tag : String),
      interestCounts profiles tag =
        (profiles.map (fun p => p.learning_interests.count tag)).sum) ∧
    skillCounts [sampleProfile1, sampleProfile2] "Programming" = 2 ∧
    skillCounts [sampleProfile1, sampleProfile2] "Cloud Computing" = 1 := by
  refine ⟨?_, ?_, ?_, ?_⟩
  · intro profiles tag
    exact count_flatMap_eq_sum StudentProfile.technical_skills profiles tag
  · intro profiles tag
    exact count_flatMap_eq_sum StudentProfile.learning_interests profiles tag
  · decide
  · decide

/-- C6: the mean of `previous_marks` grouped by `education_level`, on three
Undergraduate profiles with marks 50, 70 and 90, maps Undergraduate to 70. -/
theorem avg_marks_undergraduate_mean :
    avgMarksByEducation [marksProfile1, marksProfile2, marksProfile3]
      "Undergraduate" = some 70 := by
  norm_num [avgMarksByEducation, marksByEducation,
    marksProfile1, marksProfile2, marksProfile3]
  simp

/-- C7 counterexample: on a valid submission whose Gemini call fails, `run`
does not catch the failure — it escapes the request as an uncaught
`Except.error` instead of ending normally with a user-visible message. -/
theorem lm_failure_uncaught :
    run validForm (.error (.failure "Gemini unavailable")) .ok [] =
      .error (.failure "Gemini unavailable") := rfl

/-- C7 amended: a store-call failure during a submission (a duplicate-key
error or any other exception) is caught inside `save_student_data` and
surfaced as a user-visible message; the run ends normally with the store
unchanged, so the process stays usable for the next submission.  A failure
of the language-model call, by contrast, is not caught locally
(see `lm_failure_uncaught`). -/
theorem store_failure_caught_nonfatal (form : FormInput) (analysis : String)
    (store : Store) (msg : String) (h : ¬ form.name = "") :
    run form (.ok analysis) (.failure msg) store =
      .ok (store, [.analysisShown analysis,
        .coursesShown (recommendCourses analysis),
        .saveError (buildProfile form).name]) ∧
    run form (.ok analysis) .duplicateKey store =
      .ok (store, [.analysisShown analysis,
        .coursesShown (recommendCourses analysis),
        .duplicateKeyError (buildProfile form).name]) := by
  have hc : collectStudentDetails form = .ok (buildProfile form) := by
    simp [collectStudentDetails, h]
  constructor <;> simp [run, hc, analyzeStudentProfile, saveStudentData]

/-- Witness for the amended C7 at a concrete submission. -/
theorem store_failure_caught_nonfatal_witness :
    run validForm (.ok "analysis text") (.failure "db down") [] =
      .ok ([], [.analysisShown "analysis text",
        .coursesShown (recommendCourses "analysis text"),
        .saveError (buildProfile validForm).name]) ∧
    run validForm (.ok "analysis text") .duplicateKey [] =
      .ok ([], [.analysisShown "analysis text",
        .coursesShown (recommendCourses "analysis text"),
        .duplicateKeyError (buildProfile validForm).name]) :=
  store_failure_caught_nonfatal validForm "analysis text" [] "db down" (by decide)

/-- C8: `recommend_courses` ignores its analysis argument — any two inputs
produce the same hard-coded ordered course list. -/
theorem recommend_courses_constant (a b : String) :
    recommendCourses a = recommendCourses b := rfl

/-- C9: every profile built by `collect_student_details` from a submitted
form has a gender among the `Gender` selectbox options
`["Select", "Male", "Female", "Other"]` (`"Select"` being the spec's
`unset`). -/
theorem gender_in_enumeration (form : FormInput) (p : StudentProfile)
    (h : collectStudentDetails form = .ok p) : p.gender ∈ genderOptions := by
  by_cases hn : form.name = ""
  · simp [collectStudentDetails, hn] at h
  · simp only [collectStudentDetails, if_neg hn, Except.ok.injEq] at h
    subst h
    exact form.gender_mem

/-- Witness for C9 at the concrete valid form. -/
theorem gender_in_enumeration_witness :
    (buildProfile validForm).gender ∈ genderOptions :=
  gender_in_enumeration validForm (buildProfile validForm) rfl

/-- C10: all dashboard aggregate views are invariant under a permutation of
the loaded profile sequence, so the store's unspecified return order cannot
change the reported values. -/
theorem aggregates_perm_invariant (l₁ l₂ : List StudentProfile) (h : l₁.Perm l₂) :
    educationCounts l₁ = educationCounts l₂ ∧
    fieldCounts l₁ = fieldCounts l₂ ∧
    marksDistribution l₁ = marksDistribution l₂ ∧
    avgMarksByEducation l₁ = avgMarksByEducation l₂ ∧
    skillCounts l₁ = skillCounts l₂ ∧
    interestCounts l₁ = interestCounts l₂ := by
  refine ⟨?_, ?_, ?_, ?_, ?_, ?_⟩
  · funext lvl
    exact (h.map StudentProfile.education_level).count_eq lvl
  · funext fos
    exact (h.map StudentProfile.field_of_study).count_eq fos
  · exact Multiset.coe_eq_coe.mpr (h.map StudentProfile.previous_marks)
  · funext lvl
    have hp : (marksByEducation l₁ lvl).Perm (marksByEducation l₂ lvl) := by
      unfold marksByEducation
      exact (h.filter _).map _
    exact mean_perm hp
  · funext tag
    exact (List.Perm.flatMap_right StudentProfile.technical_skills h).count_eq tag
  · funext tag
    exact (List.Perm.flatMap_right StudentProfile.learning_interests h).count_eq tag

/-- Witness for C10 at a concrete two-profile reordering. -/
theorem aggregates_perm_invariant_witness :
    educationCounts [sampleProfile1, marksProfile1] =
      educationCounts [marksProfile1, sampleProfile1] ∧
    fieldCounts [sampleProfile1, marksProfile1] =
      fieldCounts [marksProfile1, sampleProfile1] ∧
    marksDistribution [sampleProfile1, marksProfile1] =
      marksDistribution [marksProfile1, sampleProfile1] ∧
    avgMarksByEducation [sampleProfile1, marksProfile1] =
      avgMarksByEducation [marksProfile1, sampleProfile1] ∧
    skillCounts [sampleProfile1, marksProfile1] =
      skillCounts [marksProfile1, sampleProfile1] ∧
    interestCounts [sampleProfile1, marksProfile1] =
      interestCounts [marksProfile1, sampleProfile1] :=
  aggregates_perm_invariant [sampleProfile1, marksProfile1]
    [marksProfile1, sampleProfile1] (by decide)

end StudentRec
